import Mathlib

/-
Shallow embedding of the wallet-state store (src/src/index.ts, the
`walletStore` module) and of the connection-controller handlers
(src/src/components/Wallet.tsx) of the wtf-lll-wallet repository.

The browser environment is modelled by `Env`: `Env.ethereum` is the
optional injected provider (`window.ethereum`).  Each asynchronous
provider call is modelled by a field of `Provider` holding its
`Except`-result: `Except.error` models a rejected promise / thrown
error, `Except.ok` a resolved value.  Store operations become pure
functions from the environment and the current `WalletState` to the
next `WalletState`; the outer `try/catch` of each operation is the
corresponding `match` on the `Except` value.
-/

structure NativeCurrency where
  name : String
  symbol : String
  decimals : Nat
deriving DecidableEq, Repr

structure NetworkDescriptor where
  chainId : String
  chainName : String
  nativeCurrency : NativeCurrency
  rpcUrls : List String
  blockExplorerUrls : List String
deriving DecidableEq, Repr

inductive NetworkKey where
  | ethereum
  | bsc
  | sepolia
deriving DecidableEq, Repr

/-- The static `NETWORKS` table of src/src/index.ts. -/
def NETWORKS : NetworkKey → NetworkDescriptor
  | .ethereum =>
    { chainId := "0x1"
      chainName := "Ethereum Mainnet"
      nativeCurrency := { name := "Ether", symbol := "ETH", decimals := 18 }
      rpcUrls := ["https://mainnet.infura.io/v3/"]
      blockExplorerUrls := ["https://etherscan.io/"] }
  | .bsc =>
    { chainId := "0x38"
      chainName := "Binance Smart Chain"
      nativeCurrency := { name := "BNB", symbol := "BNB", decimals := 18 }
      rpcUrls := ["https://bsc-dataseed1.binance.org/"]
      blockExplorerUrls := ["https://bscscan.com/"] }
  | .sepolia =>
    { chainId := "0xaa36a7"
      chainName := "Sepolia Testnet"
      nativeCurrency := { name := "Sepolia Ether", symbol := "ETH", decimals := 18 }
      rpcUrls := ["https://sepolia.gateway.tenderly.co/", "https://rpc.sepolia.org/",
        "https://eth-sepolia.public.blastapi.io", "https://sepolia.ethereum.publicnode.com"]
      blockExplorerUrls := ["https://sepolia.etherscan.io/"] }

/-- The `WalletState` interface: `Option` models `T | null`. -/
structure WalletState where
  address : Option String
  chainId : Option String
  isConnected : Bool
  balance : String
  ensName : Option String
  ensAvatar : Option String
  userDisconnected : Bool
deriving DecidableEq, Repr

/-- A `Partial(WalletState)` argument for `setWallet`: a field that is
`none` is absent from the record and keeps the old value on merge. -/
structure WalletPatch where
  address : Option (Option String) := none
  chainId : Option (Option String) := none
  isConnected : Option Bool := none
  balance : Option String := none
  ensName : Option (Option String) := none
  ensAvatar : Option (Option String) := none
  userDisconnected : Option Bool := none
deriving DecidableEq, Repr

/-- The initial store state of the `create(persist(...))` call. -/
def initialState : WalletState :=
  { address := none, chainId := none, isConnected := false, balance := "0",
    ensName := none, ensAvatar := none, userDisconnected := false }

/-- `setWallet: (wallet) => set((state) => ({ ...state, ...wallet }))` —
a shallow merge of the given fields into the state. -/
def setWallet (wallet : WalletPatch) (s : WalletState) : WalletState :=
  { address := wallet.address.getD s.address
    chainId := wallet.chainId.getD s.chainId
    isConnected := wallet.isConnected.getD s.isConnected
    balance := wallet.balance.getD s.balance
    ensName := wallet.ensName.getD s.ensName
    ensAvatar := wallet.ensAvatar.getD s.ensAvatar
    userDisconnected := wallet.userDisconnected.getD s.userDisconnected }

/-- `resetWallet` sets every field back to the defaults. -/
def resetWallet (_s : WalletState) : WalletState :=
  { address := none, chainId := none, isConnected := false, balance := "0",
    ensName := none, ensAvatar := none, userDisconnected := false }

/-- `disconnectWallet` clears every field and marks `userDisconnected`. -/
def disconnectWallet (_s : WalletState) : WalletState :=
  { address := none, chainId := none, isConnected := false, balance := "0",
    ensName := none, ensAvatar := none, userDisconnected := true }

/-- A provider error object; `code` is the `error.code` field that
`switchNetwork` inspects (4902 = chain unrecognized). -/
structure ProviderError where
  code : Int
deriving DecidableEq, Repr

/-- The ENS resolver object returned by `provider.getResolver`; its
`getAvatar()` call may itself fail. -/
structure Resolver where
  getAvatar : Except ProviderError (Option String)

/-- The injected provider: one field per asynchronous call the store or
controller makes, holding the call's outcome. -/
structure Provider where
  requestAccounts : Except ProviderError (List String)
  ethAccounts : Except ProviderError (List String)
  chainIdResult : Except ProviderError String
  balanceOf : String → Except ProviderError String
  lookupAddress : String → Except ProviderError (Option String)
  getResolver : String → Except ProviderError (Option Resolver)
  switchResult : String → Except ProviderError Unit
  addChainResult : NetworkDescriptor → Except ProviderError Unit

/-- The browser environment: `window.ethereum` may be absent. -/
structure Env where
  ethereum : Option Provider

/-- JavaScript truthiness of a `string | null | undefined` value:
`null`, `undefined` and the empty string are falsy. -/
def jsTruthy : Option String → Bool
  | none => false
  | some s => s != ""

/-- `getBalance`: returns the formatted ether balance, "0" when the
provider is absent or the query fails.  `balanceOf` models
`provider.getBalance` composed with `ethers.formatEther`. -/
def getBalance (env : Env) (address : String) : String :=
  match env.ethereum with
  | some p =>
    match p.balanceOf address with
    | .ok b => b
    | .error _ => "0"
  | none => "0"

/-- The chain-id resolution step of `getENSInfo`: use the argument when
it is truthy, otherwise query the provider (keeping the argument when
the query fails or no provider exists). -/
def resolveChainId (env : Env) (chainId : Option String) : Option String :=
  if jsTruthy chainId then chainId
  else
    match env.ethereum with
    | some p =>
      match p.chainIdResult with
      | .ok c => some c
      | .error _ => chainId
    | none => chainId

/-- The avatar block of `getENSInfo`: `getResolver` then `getAvatar`,
with any failure caught and downgraded to `none`. -/
def resolveAvatar (p : Provider) (ensName : String) : Option String :=
  match p.getResolver ensName with
  | .error _ => none
  | .ok none => none
  | .ok (some r) =>
    match r.getAvatar with
    | .error _ => none
    | .ok a => a

structure ENSInfo where
  ensName : Option String
  ensAvatar : Option String
deriving DecidableEq, Repr

/-- `getENSInfo`: ENS name/avatar, queried only on mainnet ("0x1"). -/
def getENSInfo (env : Env) (address : String) (chainId : Option String) : ENSInfo :=
  let currentChainId := resolveChainId env chainId
  match env.ethereum with
  | some p =>
    if currentChainId = some "0x1" then
      match p.lookupAddress address with
      | .error _ => { ensName := none, ensAvatar := none }
      | .ok ensName =>
        let ensAvatar :=
          match ensName with
          | some n => if n != "" then resolveAvatar p n else none
          | none => none
        { ensName := ensName, ensAvatar := ensAvatar }
    else { ensName := none, ensAvatar := none }
  | none => { ensName := none, ensAvatar := none }

/-- The `set({ address, chainId, isConnected: true, balance, ensName,
ensAvatar, userDisconnected: false })` block shared verbatim by
`connectWallet` and `updateWalletState`. -/
def setConnectedFields (env : Env) (address : String) (chainId : String) : WalletState :=
  let ens := getENSInfo env address (some chainId)
  { address := some address
    chainId := some chainId
    isConnected := true
    balance := getBalance env address
    ensName := ens.ensName
    ensAvatar := ens.ensAvatar
    userDisconnected := false }

/-- `connectWallet`: returns without change when no provider is
installed; requests accounts (may prompt); on a non-empty account list
reads the chain id and writes the connected fields; any rejection is
caught and leaves the state unchanged. -/
def connectWallet (env : Env) (s : WalletState) : WalletState :=
  match env.ethereum with
  | none => s
  | some p =>
    match p.requestAccounts with
    | .error _ => s
    | .ok [] => s
    | .ok (address :: _) =>
      match p.chainIdResult with
      | .error _ => s
      | .ok chainId => setConnectedFields env address chainId

/-- `updateWalletState`: silent reconciliation.  `newChainId || query`
uses the given chain id when truthy, otherwise queries the provider
(`window.ethereum!.request` throws when the provider is absent, which
the `catch` turns into a no-op, modelled by the error branch). -/
def updateWalletState (env : Env) (address : String) (newChainId : Option String)
    (s : WalletState) : WalletState :=
  let chainIdStep : Except ProviderError String :=
    if jsTruthy newChainId then .ok (newChainId.getD "")
    else
      match env.ethereum with
      | some p => p.chainIdResult
      | none => .error { code := 0 }
  match chainIdStep with
  | .error _ => s
  | .ok chainId => setConnectedFields env address chainId

/-- A request issued to the provider by `switchNetwork`, recorded so
that the add-chain payload can be stated. -/
inductive ProviderRequest where
  | switchChain (chainId : String)
  | addChain (network : NetworkDescriptor)
deriving DecidableEq, Repr

/-- `switchNetwork`: asks the provider to switch chains; on error code
4902 falls back to `wallet_addEthereumChain` with the full
`NETWORKS[networkKey]` object as payload; after a successful switch or
add it silently updates the state for the connected address (no-op when
no address is connected).  Returns the new state and the list of
provider requests issued. -/
def switchNetwork (env : Env) (networkKey : NetworkKey) (s : WalletState) :
    WalletState × List ProviderRequest :=
  match env.ethereum with
  | none => (s, [])
  | some p =>
    let network := NETWORKS networkKey
    match p.switchResult network.chainId with
    | .ok _ =>
      let s1 :=
        match s.address with
        | some address => updateWalletState env address (some network.chainId) s
        | none => s
      (s1, [.switchChain network.chainId])
    | .error e =>
      if e.code = 4902 then
        match p.addChainResult network with
        | .ok _ =>
          let s1 :=
            match s.address with
            | some address => updateWalletState env address (some network.chainId) s
            | none => s
          (s1, [.switchChain network.chainId, .addChain network])
        | .error _ => (s, [.switchChain network.chainId, .addChain network])
      else (s, [.switchChain network.chainId])

/-- `handleAccountsChanged` of Wallet.tsx: empty list disconnects, a
new first account triggers a silent update. -/
def handleAccountsChanged (env : Env) (s : WalletState) (accounts : List String) :
    WalletState :=
  match accounts with
  | [] => disconnectWallet s
  | a :: _ => if some a ≠ s.address then updateWalletState env a none s else s

/-- `checkInitialConnection` of Wallet.tsx: no-op when the user opted
out or the store is already connected; otherwise queries `eth_accounts`
(never prompting) and silently updates for the first account, if any. -/
def checkInitialConnection (env : Env) (s : WalletState) : WalletState :=
  if s.userDisconnected then s
  else if s.isConnected then s
  else
    match env.ethereum with
    | none => s
    | some p =>
      match p.ethAccounts with
      | .error _ => s
      | .ok [] => s
      | .ok (a :: _) => updateWalletState env a none s

/-- JavaScript `s.slice(0, n)` for `0 ≤ n`: the first `min n |s|`
characters. -/
def jsSliceFrom0 (s : String) (n : Nat) : String :=
  String.mk (s.data.take n)

/-- JavaScript `s.slice(-n)` for `n > 0`: starts at `max (|s| - n) 0`,
so it is the last `min n |s|` characters. -/
def jsSliceNeg (s : String) (n : Nat) : String :=
  String.mk (s.data.drop (s.data.length - n))

/-- `formatAddress`: `address.slice(0, 6) + "..." + address.slice(-4)`. -/
def formatAddress (address : String) : String :=
  jsSliceFrom0 address 6 ++ "..." ++ jsSliceNeg address 4

def digitChar (d : Nat) : Char := Char.ofNat (48 + d)

/-- `num.toFixed(4)` on a nonnegative number, with `parseFloat`
modelled as exact rational parsing: round `num * 10^4` to the nearest
integer (ties away from zero toward larger) and print integer part,
a dot, and exactly four fraction digits. -/
def toFixed4 (num : ℚ) : String :=
  let n : ℤ := ⌊num * 10000 + 1 / 2⌋
  let f : Nat := (n % 10000).toNat
  toString (n / 10000) ++ "." ++
    String.mk [digitChar (f / 1000), digitChar (f / 100 % 10),
      digitChar (f / 10 % 10), digitChar (f % 10)]

/-- `formatBalance`: `num < 0.0001 ? "0" : num.toFixed(4)`, stated on
the exact rational value `parseFloat` produced. -/
def formatBalance (num : ℚ) : String :=
  if num < 1 / 10000 then "0" else toFixed4 num

/-- The spec invariant `isConnected == (address != null)`. -/
def invariant (s : WalletState) : Prop :=
  s.isConnected = s.address.isSome

instance (s : WalletState) : Decidable (invariant s) := by
  unfold invariant; infer_instance

/-- The chain-id resolution rule exactly as the specification words it
for `getENSInfo`: "the argument if given, otherwise a live provider
query" — an explicitly given argument is used even when empty.  Kept
separate from `resolveChainId` (the code's rule) for comparison. -/
def specResolvedChainId (env : Env) (chainId : Option String) : Option String :=
  match chainId with
  | some c => some c
  | none =>
    match env.ethereum with
    | some p =>
      match p.chainIdResult with
      | .ok c => some c
      | .error _ => none
    | none => none

/-- A provider for which every call succeeds: one authorized account
"0xabc", mainnet chain, no ENS records. -/
def baseProvider : Provider :=
  { requestAccounts := .ok ["0xabc"]
    ethAccounts := .ok ["0xabc"]
    chainIdResult := .ok "0x1"
    balanceOf := fun _ => .ok "1.0"
    lookupAddress := fun _ => .ok none
    getResolver := fun _ => .ok none
    switchResult := fun _ => .ok ()
    addChainResult := fun _ => .ok () }

def envOk : Env := { ethereum := some baseProvider }

/-- A provider whose account request is rejected (user declined). -/
def rejectingProvider : Provider :=
  { baseProvider with requestAccounts := .error { code := 4001 } }

def envReject : Env := { ethereum := some rejectingProvider }

/-- A mainnet provider that resolves an ENS name for every address. -/
def ensProvider : Provider :=
  { baseProvider with lookupAddress := fun _ => .ok (some "alice.eth") }

def envMainnetENS : Env := { ethereum := some ensProvider }

/-- A provider currently on the BSC chain "0x38". -/
def provider38 : Provider := { baseProvider with chainIdResult := .ok "0x38" }

def env38 : Env := { ethereum := some provider38 }

/-- A provider that rejects every chain switch with code 4902. -/
def provider4902 : Provider :=
  { baseProvider with switchResult := fun _ => .error { code := 4902 } }

def env4902 : Env := { ethereum := some provider4902 }

/-- A connected state used to exercise the handlers. -/
def someConnectedState : WalletState :=
  { address := some "0xabc", chainId := some "0x1", isConnected := true,
    balance := "1.0", ensName := none, ensAvatar := none, userDisconnected := false }

/-- The fresh state after the user explicitly disconnected. -/
def optOutState : WalletState :=
  { initialState with userDisconnected := true }

/- Helper lemmas shared by the claim theorems. -/

theorem invariant_setConnectedFields (env : Env) (a c : String) :
    invariant (setConnectedFields env a c) := rfl

theorem connectWallet_eq_or (env : Env) (s : WalletState) :
    connectWallet env s = s ∨
      ∃ a c, connectWallet env s = setConnectedFields env a c := by
  unfold connectWallet
  split
  · exact Or.inl rfl
  · split
    · exact Or.inl rfl
    · exact Or.inl rfl
    · split
      · exact Or.inl rfl
      · exact Or.inr ⟨_, _, rfl⟩

theorem updateWalletState_eq_or (env : Env) (a : String) (nc : Option String)
    (s : WalletState) :
    updateWalletState env a nc s = s ∨
      ∃ c, updateWalletState env a nc s = setConnectedFields env a c := by
  unfold updateWalletState
  dsimp only
  split
  · exact Or.inl rfl
  · exact Or.inr ⟨_, rfl⟩

theorem switchNetwork_fst_eq_or (env : Env) (k : NetworkKey) (s : WalletState) :
    (switchNetwork env k s).1 = s ∨
      ∃ a, (switchNetwork env k s).1 =
        updateWalletState env a (some (NETWORKS k).chainId) s := by
  unfold switchNetwork
  split
  · exact Or.inl rfl
  · dsimp only
    split
    · split
      · exact Or.inr ⟨_, rfl⟩
      · exact Or.inl rfl
    · split
      · split
        · split
          · exact Or.inr ⟨_, rfl⟩
          · exact Or.inl rfl
        · exact Or.inl rfl
      · exact Or.inl rfl

theorem getENSInfo_of_not_mainnet (env : Env) (address : String) (arg : Option String)
    (h : resolveChainId env arg ≠ some "0x1") :
    getENSInfo env address arg = { ensName := none, ensAvatar := none } := by
  unfold getENSInfo
  dsimp only
  split
  all_goals simp [h]

theorem formatAddress_data (s : String) :
    (formatAddress s).data =
      s.data.take 6 ++ ('.' :: '.' :: '.' :: []) ++ s.data.drop (s.data.length - 4) := by
  unfold formatAddress jsSliceFrom0 jsSliceNeg
  rw [String.data_append, String.data_append]

theorem toFixed4_data (num : ℚ) :
    (toFixed4 num).data =
      (toString (⌊num * 10000 + 1 / 2⌋ / 10000)).data ++ ['.'] ++
        [digitChar ((⌊num * 10000 + 1 / 2⌋ % 10000).toNat / 1000),
         digitChar ((⌊num * 10000 + 1 / 2⌋ % 10000).toNat / 100 % 10),
         digitChar ((⌊num * 10000 + 1 / 2⌋ % 10000).toNat / 10 % 10),
         digitChar ((⌊num * 10000 + 1 / 2⌋ % 10000).toNat % 10)] := by
  unfold toFixed4
  rw [String.data_append, String.data_append]

theorem toFixed4_ne_zero_string (num : ℚ) : toFixed4 num ≠ "0" := by
  intro hcontra
  have hdata := congrArg String.data hcontra
  rw [toFixed4_data] at hdata
  have hlen := congrArg List.length hdata
  simp only [List.length_append, List.length_cons, List.length_nil] at hlen
  have h1 : ("0" : String).data.length = 1 := rfl
  omega

/-- C1 counterexample: `setWallet` does no validation, so merging the
partial record `{ isConnected: true }` into the initial state (which
satisfies the invariant) yields a state with `isConnected = true` but
`address = null`, breaking `isConnected == (address != null)`. -/
theorem setWallet_breaks_invariant :
    invariant initialState ∧
    ¬ invariant (setWallet { isConnected := some true } initialState) :=
  ⟨by decide, by decide⟩

/-- C1 (amended): `resetWallet`, `disconnectWallet`, `connectWallet`,
`updateWalletState` and `switchNetwork` all preserve the invariant
`isConnected == (address != null)` from any state satisfying it;
`setWallet` preserves it exactly when the shallow-merged record keeps
`isConnected` equal to the presence of `address`. -/
theorem storeOps_preserve_invariant (env : Env) (s : WalletState) (a : String)
    (nc : Option String) (k : NetworkKey) (w : WalletPatch) (h : invariant s) :
    invariant (resetWallet s) ∧ invariant (disconnectWallet s) ∧
    invariant (connectWallet env s) ∧ invariant (updateWalletState env a nc s) ∧
    invariant ((switchNetwork env k s).1) ∧
    (invariant (setWallet w s) ↔
      w.isConnected.getD s.isConnected = (w.address.getD s.address).isSome) := by
  refine ⟨rfl, rfl, ?_, ?_, ?_, Iff.rfl⟩
  · rcases connectWallet_eq_or env s with he | ⟨a2, c2, he⟩
    · rw [he]; exact h
    · rw [he]; exact invariant_setConnectedFields env a2 c2
  · rcases updateWalletState_eq_or env a nc s with he | ⟨c2, he⟩
    · rw [he]; exact h
    · rw [he]; exact invariant_setConnectedFields env a c2
  · rcases switchNetwork_fst_eq_or env k s with he | ⟨a2, he⟩
    · rw [he]; exact h
    · rw [he]
      rcases updateWalletState_eq_or env a2 (some (NETWORKS k).chainId) s with h2 | ⟨c2, h2⟩
      · rw [h2]; exact h
      · rw [h2]; exact invariant_setConnectedFields env a2 c2

/-- C1 witness: the amended theorem applied at a concrete environment,
state and patch. -/
theorem storeOps_preserve_invariant_witness :
    invariant initialState ∧ invariant (disconnectWallet initialState) :=
  ⟨rfl, (storeOps_preserve_invariant { ethereum := none } initialState "0xabc"
    none .bsc {} rfl).2.1⟩

/-- C2: when the account request or the chain-id query rejects,
`connectWallet` completes (it is a total function) and returns the
starting state unchanged — no partial write of any field. -/
theorem connectWallet_unchanged_on_failure (env : Env) (p : Provider) (s : WalletState)
    (hp : env.ethereum = some p)
    (hfail : (∃ e, p.requestAccounts = Except.error e) ∨
      (∃ e, p.chainIdResult = Except.error e)) :
    connectWallet env s = s := by
  rcases hfail with ⟨e, he⟩ | ⟨e, he⟩
  · simp only [connectWallet, hp, he]
  · simp only [connectWallet, hp]
    split
    · rfl
    · rfl
    · simp only [he]

/-- C2 witness: a provider whose account request is rejected leaves the
initial state untouched. -/
theorem connectWallet_unchanged_on_failure_witness :
    envReject.ethereum = some rejectingProvider ∧
    connectWallet envReject initialState = initialState :=
  ⟨rfl, connectWallet_unchanged_on_failure envReject rejectingProvider initialState rfl
    (Or.inl ⟨{ code := 4001 }, rfl⟩)⟩

/-- C3: for every starting state, when the provider returns a non-empty
account list and the chain-id query succeeds, the state after
`connectWallet` has `isConnected = true`, `userDisconnected = false`
and `address` equal to the first returned account. -/
theorem connectWallet_success_state (env : Env) (p : Provider) (s : WalletState)
    (a : String) (rest : List String) (cid : String)
    (hp : env.ethereum = some p)
    (hacc : p.requestAccounts = Except.ok (a :: rest))
    (hcid : p.chainIdResult = Except.ok cid) :
    (connectWallet env s).isConnected = true ∧
    (connectWallet env s).userDisconnected = false ∧
    (connectWallet env s).address = some a := by
  simp only [connectWallet, hp, hacc, hcid]
  exact ⟨rfl, rfl, rfl⟩

/-- C3 witness: the success theorem at a concrete provider returning
account "0xabc" on chain "0x1". -/
theorem connectWallet_success_state_witness :
    (connectWallet envOk initialState).isConnected = true ∧
    (connectWallet envOk initialState).userDisconnected = false ∧
    (connectWallet envOk initialState).address = some "0xabc" :=
  connectWallet_success_state envOk baseProvider initialState "0xabc" [] "0x1"
    rfl rfl rfl

/-- C4: `disconnectWallet` resets every field to its default except
`userDisconnected`, which becomes true; and an `accountsChanged` event
with an empty account list while connected invokes `disconnectWallet`,
so the state transitions to that fully-disconnected record. -/
theorem disconnect_resets_state :
    (∀ s : WalletState, disconnectWallet s =
      { address := none, chainId := none, isConnected := false, balance := "0",
        ensName := none, ensAvatar := none, userDisconnected := true }) ∧
    (∀ (env : Env) (s : WalletState), s.isConnected = true →
      handleAccountsChanged env s [] =
        { address := none, chainId := none, isConnected := false, balance := "0",
          ensName := none, ensAvatar := none, userDisconnected := true }) :=
  ⟨fun _ => rfl, fun _ _ _ => rfl⟩

/-- C4 witness: an empty `accountsChanged` event on a concrete
connected state yields the fully-disconnected record. -/
theorem disconnect_resets_state_witness :
    someConnectedState.isConnected = true ∧
    handleAccountsChanged { ethereum := none } someConnectedState [] =
      { address := none, chainId := none, isConnected := false, balance := "0",
        ensName := none, ensAvatar := none, userDisconnected := true } :=
  ⟨rfl, disconnect_resets_state.2 { ethereum := none } someConnectedState rfl⟩

/-- C5: when the provider rejects the switch request with error code
4902, `switchNetwork` issues a `wallet_addEthereumChain` request whose
payload is exactly the target `NETWORKS` descriptor, and once the add
succeeds it performs the silent `updateWalletState` with the target
chain id for the connected address (leaving the state untouched when no
address is connected). -/
theorem switchNetwork_addChain_fallback (env : Env) (p : Provider) (s : WalletState)
    (k : NetworkKey) (e : ProviderError)
    (hp : env.ethereum = some p)
    (hsw : p.switchResult (NETWORKS k).chainId = Except.error e)
    (hcode : e.code = 4902) :
    ProviderRequest.addChain (NETWORKS k) ∈ (switchNetwork env k s).2 ∧
    (p.addChainResult (NETWORKS k) = Except.ok () →
      (∀ a, s.address = some a →
        (switchNetwork env k s).1 =
          updateWalletState env a (some (NETWORKS k).chainId) s) ∧
      (s.address = none → (switchNetwork env k s).1 = s)) := by
  have hmem : ProviderRequest.addChain (NETWORKS k) ∈ (switchNetwork env k s).2 := by
    simp only [switchNetwork, hp, hsw]
    rw [if_pos hcode]
    split
    · exact List.Mem.tail _ (List.Mem.head _)
    · exact List.Mem.tail _ (List.Mem.head _)
  refine ⟨hmem, fun hadd => ⟨?_, ?_⟩⟩
  · intro a ha
    simp only [switchNetwork, hp, hsw]
    rw [if_pos hcode]
    simp only [hadd, ha]
  · intro ha
    simp only [switchNetwork, hp, hsw]
    rw [if_pos hcode]
    simp only [hadd, ha]

/-- C5 witness: the fallback theorem at the concrete scenario of the
spec — `switchNetwork bsc` against a provider lacking chain "0x38". -/
theorem switchNetwork_addChain_fallback_witness :
    ProviderRequest.addChain (NETWORKS .bsc) ∈ (switchNetwork env4902 .bsc initialState).2 ∧
    (switchNetwork env4902 .bsc initialState).1 = initialState := by
  have h := switchNetwork_addChain_fallback env4902 provider4902 initialState .bsc
    { code := 4902 } rfl rfl rfl
  exact ⟨h.1, (h.2 rfl).2 rfl⟩

/-- C6 counterexample: the claim resolves the chain id as "the argument
if given, otherwise a live provider query", but the code falls back to
the provider query also when the given argument is the empty string.
With a mainnet provider, `getENSInfo` with the explicitly given
argument "" returns a non-null name even though the given argument is
not "0x1". -/
theorem getENSInfo_empty_chainId_counterexample :
    (getENSInfo envMainnetENS "0xabc" (some "")).ensName = some "alice.eth" ∧
    specResolvedChainId envMainnetENS (some "") ≠ some "0x1" := by
  exact ⟨by decide, by decide⟩

/-- C6 (amended): with the chain id resolved as the code does — the
argument when truthy (given and non-empty), otherwise the live provider
query — `getENSInfo` returns a non-null name or avatar only when the
resolved chain id is "0x1"; any non-mainnet resolution and any failure
of the name lookup yield `{none, none}`; a failure during avatar
resolution alone yields the resolved name with a null avatar. -/
theorem getENSInfo_mainnet_only (env : Env) (address : String) (arg : Option String) :
    ((getENSInfo env address arg).ensName ≠ none ∨
        (getENSInfo env address arg).ensAvatar ≠ none →
      resolveChainId env arg = some "0x1") ∧
    (resolveChainId env arg ≠ some "0x1" →
      getENSInfo env address arg = { ensName := none, ensAvatar := none }) ∧
    (∀ p, env.ethereum = some p → resolveChainId env arg = some "0x1" →
      (∀ e, p.lookupAddress address = Except.error e →
        getENSInfo env address arg = { ensName := none, ensAvatar := none }) ∧
      (∀ n, p.lookupAddress address = Except.ok (some n) → n ≠ "" →
        ((∃ e, p.getResolver n = Except.error e) ∨
          (∃ r e, p.getResolver n = Except.ok (some r) ∧ r.getAvatar = Except.error e)) →
        getENSInfo env address arg = { ensName := some n, ensAvatar := none })) := by
  refine ⟨?_, fun h => getENSInfo_of_not_mainnet env address arg h, ?_⟩
  · intro hor
    by_contra hne
    rw [getENSInfo_of_not_mainnet env address arg hne] at hor
    rcases hor with h | h
    · exact h rfl
    · exact h rfl
  · intro p hp hres
    constructor
    · intro e he
      simp only [getENSInfo, hp, hres]
      rw [if_pos trivial]
      simp only [he]
    · intro n hn hne hav
      simp only [getENSInfo, hp, hres]
      rw [if_pos trivial]
      simp only [hn]
      have hbne : (n != "") = true := by
        simp [bne_iff_ne, hne]
      rw [if_pos hbne]
      have hra : resolveAvatar p n = none := by
        rcases hav with ⟨e2, he2⟩ | ⟨r, e2, hr, he2⟩
        · simp only [resolveAvatar, he2]
        · simp only [resolveAvatar, hr, he2]
      rw [hra]

/-- C6 witness: the amended theorem applied to a provider on chain
"0x38", where ENS info degrades to both fields null. -/
theorem getENSInfo_mainnet_only_witness :
    resolveChainId env38 none ≠ some "0x1" ∧
    getENSInfo env38 "0xabc" none = { ensName := none, ensAvatar := none } :=
  ⟨by decide, (getENSInfo_mainnet_only env38 "0xabc" none).2.1 (by decide)⟩

/-- C7: on mount, `checkInitialConnection` leaves the state completely
unchanged whenever `userDisconnected` is true — whatever accounts the
provider reports — and likewise when the state is already connected. -/
theorem checkInitialConnection_noop (env : Env) (s : WalletState) :
    (s.userDisconnected = true → checkInitialConnection env s = s) ∧
    (s.isConnected = true → checkInitialConnection env s = s) := by
  constructor
  · intro h
    simp only [checkInitialConnection, h]
    rw [if_pos trivial]
  · intro h
    simp only [checkInitialConnection, h]
    by_cases hu : s.userDisconnected = true
    · rw [if_pos hu]
    · rw [if_neg hu, if_pos trivial]

/-- C7 witness: the no-op theorem applied to an opted-out state against
a provider that does report an authorized account. -/
theorem checkInitialConnection_noop_witness :
    optOutState.userDisconnected = true ∧
    checkInitialConnection envOk optOutState = optOutState :=
  ⟨rfl, (checkInitialConnection_noop envOk optOutState).1 rfl⟩

/-- C8: on every input of length at least 10, `formatAddress` returns
exactly 13 characters — the first 6 characters of the input, then
"...", then the last 4 characters of the input. -/
theorem formatAddress_length13 (s : String) (h : 10 ≤ s.data.length) :
    (formatAddress s).data =
      s.data.take 6 ++ ('.' :: '.' :: '.' :: []) ++ s.data.drop (s.data.length - 4) ∧
    (formatAddress s).data.length = 13 ∧
    (s.data.take 6).length = 6 ∧
    (s.data.drop (s.data.length - 4)).length = 4 := by
  have ht : (s.data.take 6).length = 6 := by
    rw [List.length_take]
    omega
  have hd : (s.data.drop (s.data.length - 4)).length = 4 := by
    rw [List.length_drop]
    omega
  refine ⟨formatAddress_data s, ?_, ht, hd⟩
  rw [formatAddress_data s, List.length_append, List.length_append, ht, hd]
  rfl

/-- C8 witness: a 12-character address formats to 13 characters. -/
theorem formatAddress_length13_witness :
    10 ≤ ("0x1234567890" : String).data.length ∧
    (formatAddress "0x1234567890").data.length = 13 :=
  ⟨by decide, (formatAddress_length13 "0x1234567890" (by decide)).2.1⟩

/-- C9: `formatBalance` returns "0" exactly when the parsed value is
below 0.0001, and otherwise returns the value fixed to 4 decimal
places (`toFixed4`, the model of `toFixed(4)` on the exact parsed
rational). -/
theorem formatBalance_zero_iff (num : ℚ) :
    (formatBalance num = "0" ↔ num < 1 / 10000) ∧
    (1 / 10000 ≤ num → formatBalance num = toFixed4 num) := by
  constructor
  · constructor
    · intro h
      by_contra hlt
      unfold formatBalance at h
      rw [if_neg hlt] at h
      exact toFixed4_ne_zero_string num h
    · intro h
      unfold formatBalance
      rw [if_pos h]
  · intro h
    unfold formatBalance
    rw [if_neg (not_lt.mpr h)]

/-- C9 witness: the theorem applied at the parsed value 2. -/
theorem formatBalance_zero_iff_witness :
    (1 : ℚ) / 10000 ≤ 2 ∧ formatBalance 2 = toFixed4 2 :=
  ⟨by norm_num, (formatBalance_zero_iff 2).2 (by norm_num)⟩

/-- C10: `formatAddress` is total on all strings: it always returns the
first `min 6 |s|` characters, then "...", then the last `min 4 |s|`
characters (so for short inputs the two slices overlap and characters
are duplicated), and the empty string maps to "...". -/
theorem formatAddress_total_characterization :
    (∀ s : String, (formatAddress s).data =
      s.data.take (min 6 s.data.length) ++ ('.' :: '.' :: '.' :: []) ++
        s.data.drop (s.data.length - min 4 s.data.length)) ∧
    formatAddress "" = "..." := by
  constructor
  · intro s
    have h1 : s.data.take (min 6 s.data.length) = s.data.take 6 := by
      rcases le_total 6 s.data.length with h | h
      · rw [Nat.min_eq_left h]
      · rw [Nat.min_eq_right h, List.take_length]
        exact (List.take_of_length_le h).symm
    have h2 : s.data.length - min 4 s.data.length = s.data.length - 4 := by omega
    rw [h1, h2]
    exact formatAddress_data s
  · decide
